import Mathlib

/- Shallow embedding of the Swbhaav/Nepse-Swagger scraper.

   The repository holds three implementation variants of the same Express +
   Puppeteer NEPSE scraper:
   * src/api/index.js, first half  ("optimized"): scrapers take
     (limit, maxPages) and paginate under both caps;
   * src/api/index.js, second half ("unlimited"): scrapers take an optional
     limit and paginate up to a hardcoded page constant
     (100 for todays-price / live-trading / floor-sheet, 50 for top-gainers);
   * src/unnamed/part_000: a single-page variant whose live-trading and
     top-gainers normalizers carry no timestamp field.

   JavaScript objects are modelled as ordered association lists from field
   names to string values.  The Puppeteer page is modelled as an opaque
   environment, ScrapeEnv, giving for each pagination step the rows the DOM
   yields, the state of the "next" control, and whether the click/wait
   navigation sequence succeeds.  Wall-clock time is an abstract Nat; each
   Date.now reading is an explicit argument threaded from the environment. -/

/-- A raw table row: the trimmed text of its td cells, in DOM order
    (spec, RawRow). -/
abbrev RawRow := List String

/-- A normalized record: a JavaScript object modelled as an ordered
    association list of field name / string value pairs. -/
abbrev Record := List (String × String)

/-- The empty string (the JS fallback value for a missing cell). -/
def emptyText : String := ""

/-- JS property access record.f on the object model: first binding wins. -/
def lookupField (f : String) : Record → Option String
  | [] => none
  | (k, v) :: r => if k = f then some v else lookupField f r

/-- Models the cell read in every normalizer:
    cells[i]?.textContent.trim() || '' — the i-th cell text, or the empty
    string when the index is beyond the row (an empty cell text also
    collapses to the empty string, which the JS expression maps to '' too). -/
def cellAt (cells : RawRow) (i : Nat) : String := cells.getD i emptyText

/-- Models new Date(now).toISOString(): an injective rendering of the
    abstract clock value current at normalization time. -/
def isoString (now : Nat) : String := toString now

/- Normalizers.  Each is the body of the rows.map callback inside the
   corresponding page.evaluate, translated field by field.  The todays-price,
   live-trading, floor-sheet and top-gainers callbacks are textually identical
   between the optimized and unlimited halves of src/api/index.js, so one
   definition serves both; part_000's todays-price callback is also identical
   to normalizeTodaysPrice, while its live-trading and top-gainers callbacks
   differ (no timestamp field) and get their own definitions below. -/

/-- Normalizer of src/api/index.js scrapeTodaysPrice (both halves) and of
    part_000 scrapeTodaysPrice: fields sn..previousClose from cells 0..9,
    plus a timestamp stamped at normalization time. -/
def normalizeTodaysPrice (now : Nat) (cells : RawRow) : Record :=
  [("sn", cellAt cells 0), ("symbol", cellAt cells 1), ("ltp", cellAt cells 2),
   ("change", cellAt cells 3), ("percentChange", cellAt cells 4),
   ("open", cellAt cells 5), ("high", cellAt cells 6), ("low", cellAt cells 7),
   ("volume", cellAt cells 8), ("previousClose", cellAt cells 9),
   ("timestamp", isoString now)]

/-- Normalizer of src/api/index.js scrapeLiveTrading (both halves). -/
def normalizeLiveTrading (now : Nat) (cells : RawRow) : Record :=
  [("symbol", cellAt cells 0), ("ltp", cellAt cells 1), ("change", cellAt cells 2),
   ("percentChange", cellAt cells 3), ("volume", cellAt cells 4),
   ("high", cellAt cells 5), ("low", cellAt cells 6),
   ("timestamp", isoString now)]

/-- Normalizer of src/api/index.js scrapeTopGainers (both halves). -/
def normalizeTopGainers (now : Nat) (cells : RawRow) : Record :=
  [("symbol", cellAt cells 0), ("ltp", cellAt cells 1), ("change", cellAt cells 2),
   ("percentChange", cellAt cells 3), ("timestamp", isoString now)]

/-- Normalizer of src/api/index.js scrapeFloorSheet (both halves). -/
def normalizeFloorSheet (now : Nat) (cells : RawRow) : Record :=
  [("pageSn", cellAt cells 0), ("contractNo", cellAt cells 1),
   ("symbol", cellAt cells 2), ("buyerMemberId", cellAt cells 3),
   ("sellerMemberId", cellAt cells 4), ("quantity", cellAt cells 5),
   ("rate", cellAt cells 6), ("amount", cellAt cells 7),
   ("timestamp", isoString now)]

/-- Normalizer of part_000 scrapeLiveTrading: seven positional fields and no
    timestamp field (and no clock input: the callback never reads Date). -/
def p0NormalizeLiveTrading (cells : RawRow) : Record :=
  [("symbol", cellAt cells 0), ("ltp", cellAt cells 1), ("change", cellAt cells 2),
   ("percentChange", cellAt cells 3), ("volume", cellAt cells 4),
   ("high", cellAt cells 5), ("low", cellAt cells 6)]

/-- Normalizer of part_000 scrapeTopGainers: four positional fields and no
    timestamp field. -/
def p0NormalizeTopGainers (cells : RawRow) : Record :=
  [("symbol", cellAt cells 0), ("ltp", cellAt cells 1), ("change", cellAt cells 2),
   ("percentChange", cellAt cells 3)]

/- Per-source column maps (spec: "fixed per-source column map").  These are
   written from the spec's field layouts and checked against the normalizers
   by the C5 theorem; timestamp is not positional and so not listed. -/

/-- Column map of the todays-price schema. -/
def tpColumnMap : List (String × Nat) :=
  [("sn", 0), ("symbol", 1), ("ltp", 2), ("change", 3), ("percentChange", 4),
   ("open", 5), ("high", 6), ("low", 7), ("volume", 8), ("previousClose", 9)]

/-- Column map of the live-trading schema. -/
def ltColumnMap : List (String × Nat) :=
  [("symbol", 0), ("ltp", 1), ("change", 2), ("percentChange", 3),
   ("volume", 4), ("high", 5), ("low", 6)]

/-- Column map of the top-gainers schema. -/
def tgColumnMap : List (String × Nat) :=
  [("symbol", 0), ("ltp", 1), ("change", 2), ("percentChange", 3)]

/-- Column map of the floor-sheet schema. -/
def fsColumnMap : List (String × Nat) :=
  [("pageSn", 0), ("contractNo", 1), ("symbol", 2), ("buyerMemberId", 3),
   ("sellerMemberId", 4), ("quantity", 5), ("rate", 6), ("amount", 7)]

/-- rows.map over a page, with a fresh clock reading per row (JS evaluates
    new Date() once per callback invocation); the Nat argument is the row
    index fed to the page clock. -/
def normRows (f : Nat → RawRow → Record) (clock : Nat → Nat) :
    Nat → List RawRow → List Record
  | _, [] => []
  | i, r :: rs => f (clock i) r :: normRows f clock (i + 1) rs

/-- The opaque browser session, one scrape's view of it.  Pages are indexed
    by the value of the JS pageCount variable at the extraction that reads
    them (page 1 is the initially loaded page; a successful click/wait
    sequence moves the DOM from page n to page n + 1). -/
structure ScrapeEnv where
  /-- rows the page.evaluate extraction sees on page n
      (document.querySelectorAll of table tbody tr). -/
  pageRows : Nat → List RawRow
  /-- abstract wall clock: clock n i is the Date.now reading when row i of
      page n is normalized. -/
  clock : Nat → Nat → Nat
  /-- whether the query for an enabled next anchor finds a button on page n. -/
  nextFound : Nat → Bool
  /-- result of the follow-up isDisabled evaluate on that button. -/
  nextDisabled : Nat → Bool
  /-- whether the click / waitForTimeout / waitForSelector sequence that
      should move from page n to page n + 1 completes without throwing. -/
  navOk : Nat → Bool
  /-- floor-sheet variant: result of the composite hasNext evaluate on
      page n (anchor present, parent li not disabled, anchor not disabled). -/
  fsHasNext : Nat → Bool
  /-- whether the initial goto and table wait succeed (a false value models
      the only error path that escapes a scraper). -/
  initialLoadOk : Bool

/-- Records normalized from page p by the todays-price extraction. -/
def tpNormPage (env : ScrapeEnv) (p : Nat) : List Record :=
  normRows normalizeTodaysPrice (env.clock p) 0 (env.pageRows p)

/-- Records normalized from page p by the live-trading extraction. -/
def ltNormPage (env : ScrapeEnv) (p : Nat) : List Record :=
  normRows normalizeLiveTrading (env.clock p) 0 (env.pageRows p)

/-- Records normalized from page p by the top-gainers extraction. -/
def tgNormPage (env : ScrapeEnv) (p : Nat) : List Record :=
  normRows normalizeTopGainers (env.clock p) 0 (env.pageRows p)

/-- Records normalized from page p by the floor-sheet extraction. -/
def fsNormPage (env : ScrapeEnv) (p : Nat) : List Record :=
  normRows normalizeFloorSheet (env.clock p) 0 (env.pageRows p)

/-- Observable outcome of one pagination loop: the accumulator (allData),
    the number of page extractions performed (page.evaluate row reads), and
    the (allData.length, pageCount) state at each point where the loop went
    on to query the next control (instrumentation for the navigation-attempt
    claims; the JS computes no such list, it is read off the control flow). -/
structure LoopRes where
  acc : List Record
  visited : Nat
  navs : List (Nat × Nat)
deriving DecidableEq

/- ------------------------------------------------------------------ -/
/- Optimized variant (src/api/index.js, first half).                   -/
/- ------------------------------------------------------------------ -/

/-- Pagination loop of the optimized scrapeTodaysPrice, lines 335-395:
    while (pageCount <= maxPages) extract; stop on empty page; append;
    stop when allData.length >= limit; stop when pageCount >= maxPages;
    query next control (stop if absent or disabled); click and wait
    (stop on navigation error); pageCount++.  The fuel argument only bounds
    the recursion; tpRun below supplies enough fuel that it never runs out
    before the JS loop condition fails. -/
def tpLoop (env : ScrapeEnv) (limit maxPages : Nat) :
    Nat → Nat → List Record → Nat → List (Nat × Nat) → LoopRes
  | 0, _, acc, vis, navs => ⟨acc, vis, navs⟩
  | fuel + 1, pc, acc, vis, navs =>
    if pc ≤ maxPages then
      if (tpNormPage env pc).length = 0 then ⟨acc, vis + 1, navs⟩
      else if limit ≤ (acc ++ tpNormPage env pc).length then
        ⟨acc ++ tpNormPage env pc, vis + 1, navs⟩
      else if maxPages ≤ pc then
        ⟨acc ++ tpNormPage env pc, vis + 1, navs⟩
      else if env.nextFound pc = false then
        ⟨acc ++ tpNormPage env pc, vis + 1,
          navs ++ [((acc ++ tpNormPage env pc).length, pc)]⟩
      else if env.nextDisabled pc = true then
        ⟨acc ++ tpNormPage env pc, vis + 1,
          navs ++ [((acc ++ tpNormPage env pc).length, pc)]⟩
      else if env.navOk pc = false then
        ⟨acc ++ tpNormPage env pc, vis + 1,
          navs ++ [((acc ++ tpNormPage env pc).length, pc)]⟩
      else
        tpLoop env limit maxPages fuel (pc + 1) (acc ++ tpNormPage env pc)
          (vis + 1) (navs ++ [((acc ++ tpNormPage env pc).length, pc)])
    else ⟨acc, vis, navs⟩

/-- The optimized todays-price loop run from its initial state
    (allData = [], pageCount = 1).  Fuel maxPages suffices: the loop body
    recurses only when pageCount < maxPages, so fuel exhaustion coincides with
    the while condition failing. -/
def tpRun (env : ScrapeEnv) (limit maxPages : Nat) : LoopRes :=
  tpLoop env limit maxPages maxPages 1 [] 0 []

/-- Optimized scrapeTodaysPrice, lines 305-411: run the loop, then
    if (allData.length > limit) allData = allData.slice(0, limit). -/
def scrapeTodaysPrice (env : ScrapeEnv) (limit maxPages : Nat) : List Record :=
  if limit < (tpRun env limit maxPages).acc.length then
    (tpRun env limit maxPages).acc.take limit
  else (tpRun env limit maxPages).acc

/-- Pagination loop of the optimized scrapeLiveTrading, lines 440-483:
    while (pageCount <= maxPages && allData.length < limit) extract; stop on
    empty page; append; stop when allData.length >= limit or
    pageCount >= maxPages; next control; click and wait; pageCount++. -/
def ltLoop (env : ScrapeEnv) (limit maxPages : Nat) :
    Nat → Nat → List Record → Nat → List (Nat × Nat) → LoopRes
  | 0, _, acc, vis, navs => ⟨acc, vis, navs⟩
  | fuel + 1, pc, acc, vis, navs =>
    if pc ≤ maxPages ∧ acc.length < limit then
      if (ltNormPage env pc).length = 0 then ⟨acc, vis + 1, navs⟩
      else if limit ≤ (acc ++ ltNormPage env pc).length ∨ maxPages ≤ pc then
        ⟨acc ++ ltNormPage env pc, vis + 1, navs⟩
      else if env.nextFound pc = false then
        ⟨acc ++ ltNormPage env pc, vis + 1,
          navs ++ [((acc ++ ltNormPage env pc).length, pc)]⟩
      else if env.nextDisabled pc = true then
        ⟨acc ++ ltNormPage env pc, vis + 1,
          navs ++ [((acc ++ ltNormPage env pc).length, pc)]⟩
      else if env.navOk pc = false then
        ⟨acc ++ ltNormPage env pc, vis + 1,
          navs ++ [((acc ++ ltNormPage env pc).length, pc)]⟩
      else
        ltLoop env limit maxPages fuel (pc + 1) (acc ++ ltNormPage env pc)
          (vis + 1) (navs ++ [((acc ++ ltNormPage env pc).length, pc)])
    else ⟨acc, vis, navs⟩

/-- The optimized live-trading loop run from its initial state. -/
def ltRun (env : ScrapeEnv) (limit maxPages : Nat) : LoopRes :=
  ltLoop env limit maxPages maxPages 1 [] 0 []

/-- Optimized scrapeLiveTrading, lines 413-498, including the final
    conditional slice. -/
def scrapeLiveTrading (env : ScrapeEnv) (limit maxPages : Nat) : List Record :=
  if limit < (ltRun env limit maxPages).acc.length then
    (ltRun env limit maxPages).acc.take limit
  else (ltRun env limit maxPages).acc

/-- Pagination loop of the optimized scrapeFloorSheet, lines 568-620:
    same while condition and combined break as live-trading, but the next
    control is probed by one composite evaluate (hasNext), the click is done
    inside an evaluate with no try/catch, and after the wait the loop breaks
    if the new page shows zero rows (that count reads the DOM the next
    iteration would extract, page pc + 1). -/
def fsLoop (env : ScrapeEnv) (limit maxPages : Nat) :
    Nat → Nat → List Record → Nat → List (Nat × Nat) → LoopRes
  | 0, _, acc, vis, navs => ⟨acc, vis, navs⟩
  | fuel + 1, pc, acc, vis, navs =>
    if pc ≤ maxPages ∧ acc.length < limit then
      if (fsNormPage env pc).length = 0 then ⟨acc, vis + 1, navs⟩
      else if limit ≤ (acc ++ fsNormPage env pc).length ∨ maxPages ≤ pc then
        ⟨acc ++ fsNormPage env pc, vis + 1, navs⟩
      else if env.fsHasNext pc = false then
        ⟨acc ++ fsNormPage env pc, vis + 1,
          navs ++ [((acc ++ fsNormPage env pc).length, pc)]⟩
      else if (env.pageRows (pc + 1)).length = 0 then
        ⟨acc ++ fsNormPage env pc, vis + 1,
          navs ++ [((acc ++ fsNormPage env pc).length, pc)]⟩
      else
        fsLoop env limit maxPages fuel (pc + 1) (acc ++ fsNormPage env pc)
          (vis + 1) (navs ++ [((acc ++ fsNormPage env pc).length, pc)])
    else ⟨acc, vis, navs⟩

/-- The optimized floor-sheet loop run from its initial state. -/
def fsRun (env : ScrapeEnv) (limit maxPages : Nat) : LoopRes :=
  fsLoop env limit maxPages maxPages 1 [] 0 []

/-- Optimized scrapeFloorSheet, lines 545-635, including the final
    conditional slice. -/
def scrapeFloorSheet (env : ScrapeEnv) (limit maxPages : Nat) : List Record :=
  if limit < (fsRun env limit maxPages).acc.length then
    (fsRun env limit maxPages).acc.take limit
  else (fsRun env limit maxPages).acc

/-- Optimized scrapeTopGainers, lines 500-543: a single extraction of the
    first page, no pagination loop at all. -/
def scrapeTopGainersOpt (env : ScrapeEnv) : List Record :=
  tgNormPage env 1

/-- Orchestrator view of the optimized scrapeTodaysPrice: the initial goto /
    waitForSelector failure is the only error that escapes (rethrown by the
    catch after logging); every in-loop failure degrades to a normal return. -/
def scrapeTodaysPriceE (env : ScrapeEnv) (limit maxPages : Nat) :
    Except String (List Record) :=
  if env.initialLoadOk then Except.ok (scrapeTodaysPrice env limit maxPages)
  else Except.error ("initial page load failed")

/-- Orchestrator view of the optimized scrapeLiveTrading. -/
def scrapeLiveTradingE (env : ScrapeEnv) (limit maxPages : Nat) :
    Except String (List Record) :=
  if env.initialLoadOk then Except.ok (scrapeLiveTrading env limit maxPages)
  else Except.error ("initial page load failed")

/- ------------------------------------------------------------------ -/
/- Unlimited variant (src/api/index.js, second half).                  -/
/- ------------------------------------------------------------------ -/

/-- JS truthiness of the optional limit (null and 0 are falsy). -/
def jsTruthy : Option Nat → Bool
  | none => false
  | some n => decide (0 < n)

/-- Numeric value of the optional limit where the JS comparison uses it. -/
def jsNum (l : Option Nat) : Nat := l.getD 0

/-- Pagination loop of the unlimited scrapeTodaysPrice, lines 939-993:
    const maxPages = 100; while (pageCount <= maxPages) extract; stop on
    empty page; append; if (limit && allData.length >= limit) break; next
    control; click and wait; pageCount++.  There is no inner page-cap break,
    so the loop can attempt one navigation from page 100 before the while
    condition stops it. -/
def tpAllLoop (env : ScrapeEnv) (limit : Option Nat) :
    Nat → Nat → List Record → Nat → List (Nat × Nat) → LoopRes
  | 0, _, acc, vis, navs => ⟨acc, vis, navs⟩
  | fuel + 1, pc, acc, vis, navs =>
    if pc ≤ 100 then
      if (tpNormPage env pc).length = 0 then ⟨acc, vis + 1, navs⟩
      else if jsTruthy limit = true ∧ jsNum limit ≤ (acc ++ tpNormPage env pc).length then
        ⟨acc ++ tpNormPage env pc, vis + 1, navs⟩
      else if env.nextFound pc = false then
        ⟨acc ++ tpNormPage env pc, vis + 1,
          navs ++ [((acc ++ tpNormPage env pc).length, pc)]⟩
      else if env.nextDisabled pc = true then
        ⟨acc ++ tpNormPage env pc, vis + 1,
          navs ++ [((acc ++ tpNormPage env pc).length, pc)]⟩
      else if env.navOk pc = false then
        ⟨acc ++ tpNormPage env pc, vis + 1,
          navs ++ [((acc ++ tpNormPage env pc).length, pc)]⟩
      else
        tpAllLoop env limit fuel (pc + 1) (acc ++ tpNormPage env pc)
          (vis + 1) (navs ++ [((acc ++ tpNormPage env pc).length, pc)])
    else ⟨acc, vis, navs⟩

/-- The unlimited todays-price loop from its initial state (fuel 101 covers
    pageCount values 1..101; the while condition fails at 101). -/
def tpAllRun (env : ScrapeEnv) (limit : Option Nat) : LoopRes :=
  tpAllLoop env limit 101 1 [] 0 []

/-- Unlimited scrapeTodaysPrice, lines 912-1005:
    if (limit) allData = allData.slice(0, limit). -/
def scrapeTodaysPriceAll (env : ScrapeEnv) (limit : Option Nat) : List Record :=
  if jsTruthy limit then (tpAllRun env limit).acc.take (jsNum limit)
  else (tpAllRun env limit).acc

/-- Pagination loop of the unlimited scrapeLiveTrading, lines 1031-1075:
    identical control flow to the unlimited todays-price loop
    (maxPages = 100). -/
def ltAllLoop (env : ScrapeEnv) (limit : Option Nat) :
    Nat → Nat → List Record → Nat → List (Nat × Nat) → LoopRes
  | 0, _, acc, vis, navs => ⟨acc, vis, navs⟩
  | fuel + 1, pc, acc, vis, navs =>
    if pc ≤ 100 then
      if (ltNormPage env pc).length = 0 then ⟨acc, vis + 1, navs⟩
      else if jsTruthy limit = true ∧ jsNum limit ≤ (acc ++ ltNormPage env pc).length then
        ⟨acc ++ ltNormPage env pc, vis + 1, navs⟩
      else if env.nextFound pc = false then
        ⟨acc ++ ltNormPage env pc, vis + 1,
          navs ++ [((acc ++ ltNormPage env pc).length, pc)]⟩
      else if env.nextDisabled pc = true then
        ⟨acc ++ ltNormPage env pc, vis + 1,
          navs ++ [((acc ++ ltNormPage env pc).length, pc)]⟩
      else if env.navOk pc = false then
        ⟨acc ++ ltNormPage env pc, vis + 1,
          navs ++ [((acc ++ ltNormPage env pc).length, pc)]⟩
      else
        ltAllLoop env limit fuel (pc + 1) (acc ++ ltNormPage env pc)
          (vis + 1) (navs ++ [((acc ++ ltNormPage env pc).length, pc)])
    else ⟨acc, vis, navs⟩

/-- The unlimited live-trading loop from its initial state. -/
def ltAllRun (env : ScrapeEnv) (limit : Option Nat) : LoopRes :=
  ltAllLoop env limit 101 1 [] 0 []

/-- Unlimited scrapeLiveTrading, lines 1007-1086. -/
def scrapeLiveTradingAll (env : ScrapeEnv) (limit : Option Nat) : List Record :=
  if jsTruthy limit then (ltAllRun env limit).acc.take (jsNum limit)
  else (ltAllRun env limit).acc

/-- Pagination loop of the unlimited scrapeTopGainers, lines 1106-1146:
    const maxPages = 50; while (pageCount <= maxPages) extract; stop on empty
    page; append (no limit parameter at all); next control; click and wait;
    pageCount++. -/
def tgAllLoop (env : ScrapeEnv) :
    Nat → Nat → List Record → Nat → List (Nat × Nat) → LoopRes
  | 0, _, acc, vis, navs => ⟨acc, vis, navs⟩
  | fuel + 1, pc, acc, vis, navs =>
    if pc ≤ 50 then
      if (tgNormPage env pc).length = 0 then ⟨acc, vis + 1, navs⟩
      else if env.nextFound pc = false then
        ⟨acc ++ tgNormPage env pc, vis + 1,
          navs ++ [((acc ++ tgNormPage env pc).length, pc)]⟩
      else if env.nextDisabled pc = true then
        ⟨acc ++ tgNormPage env pc, vis + 1,
          navs ++ [((acc ++ tgNormPage env pc).length, pc)]⟩
      else if env.navOk pc = false then
        ⟨acc ++ tgNormPage env pc, vis + 1,
          navs ++ [((acc ++ tgNormPage env pc).length, pc)]⟩
      else
        tgAllLoop env fuel (pc + 1) (acc ++ tgNormPage env pc)
          (vis + 1) (navs ++ [((acc ++ tgNormPage env pc).length, pc)])
    else ⟨acc, vis, navs⟩

/-- The unlimited top-gainers loop from its initial state. -/
def tgAllRun (env : ScrapeEnv) : LoopRes :=
  tgAllLoop env 51 1 [] 0 []

/-- Unlimited scrapeTopGainers, lines 1088-1156: the accumulator is returned
    with no truncation. -/
def scrapeTopGainersAll (env : ScrapeEnv) : List Record :=
  (tgAllRun env).acc

/-- Pagination loop of the unlimited scrapeFloorSheet, lines 1177-1230:
    const maxPages = 100; floor-sheet next logic (composite hasNext evaluate,
    click in an evaluate, post-wait zero-row break), with the limit break
    guarded by truthiness. -/
def fsAllLoop (env : ScrapeEnv) (limit : Option Nat) :
    Nat → Nat → List Record → Nat → List (Nat × Nat) → LoopRes
  | 0, _, acc, vis, navs => ⟨acc, vis, navs⟩
  | fuel + 1, pc, acc, vis, navs =>
    if pc ≤ 100 then
      if (fsNormPage env pc).length = 0 then ⟨acc, vis + 1, navs⟩
      else if jsTruthy limit = true ∧ jsNum limit ≤ (acc ++ fsNormPage env pc).length then
        ⟨acc ++ fsNormPage env pc, vis + 1, navs⟩
      else if env.fsHasNext pc = false then
        ⟨acc ++ fsNormPage env pc, vis + 1,
          navs ++ [((acc ++ fsNormPage env pc).length, pc)]⟩
      else if (env.pageRows (pc + 1)).length = 0 then
        ⟨acc ++ fsNormPage env pc, vis + 1,
          navs ++ [((acc ++ fsNormPage env pc).length, pc)]⟩
      else
        fsAllLoop env limit fuel (pc + 1) (acc ++ fsNormPage env pc)
          (vis + 1) (navs ++ [((acc ++ fsNormPage env pc).length, pc)])
    else ⟨acc, vis, navs⟩

/-- The unlimited floor-sheet loop from its initial state. -/
def fsAllRun (env : ScrapeEnv) (limit : Option Nat) : LoopRes :=
  fsAllLoop env limit 101 1 [] 0 []

/-- Unlimited scrapeFloorSheet, lines 1158-1241. -/
def scrapeFloorSheetAll (env : ScrapeEnv) (limit : Option Nat) : List Record :=
  if jsTruthy limit then (fsAllRun env limit).acc.take (jsNum limit)
  else (fsAllRun env limit).acc

/- ------------------------------------------------------------------ -/
/- TTL cache (src/api/index.js lines 20-39).                           -/
/- ------------------------------------------------------------------ -/

/-- One cache entry: { data, expiry: Date.now() + ttl }. -/
structure CacheEntry where
  data : List Record
  expiry : Nat
deriving DecidableEq

/-- The process-wide Map: modelled as an association list with unique keys
    (only cacheSet inserts, and it replaces any previous binding). -/
abbrev Cache := List (String × CacheEntry)

/-- Map.get: the binding for k, if any. -/
def cacheGetRaw (c : Cache) (k : String) : Option CacheEntry :=
  match c with
  | [] => none
  | (q, e) :: r => if q = k then some e else cacheGetRaw r k

/-- Map.delete: remove the binding for k. -/
def cacheDel (c : Cache) (k : String) : Cache :=
  match c with
  | [] => []
  | (q, e) :: r => if q = k then cacheDel r k else (q, e) :: cacheDel r k

/-- Map.set: bind k to e, replacing any previous binding (insertion order is
    unobservable through cacheGetRaw, so the new binding goes in front). -/
def cacheSet (c : Cache) (k : String) (e : CacheEntry) : Cache :=
  (k, e) :: cacheDel c k

/-- getCached, lines 24-32: absent key gives null; Date.now() > expiry gives
    null and deletes the entry; otherwise the stored data is returned.  The
    pair result carries the cache after the possible eviction side effect. -/
def getCached (c : Cache) (now : Nat) (k : String) :
    Option (List Record) × Cache :=
  match cacheGetRaw c k with
  | none => (none, c)
  | some item =>
    if item.expiry < now then (none, cacheDel c k) else (some item.data, c)

/-- setCache, lines 34-39: store data with expiry = Date.now() + ttl,
    unconditionally overwriting. -/
def setCache (c : Cache) (now : Nat) (k : String) (data : List Record)
    (ttl : Nat) : Cache :=
  cacheSet c k ⟨data, now + ttl⟩

/- ------------------------------------------------------------------ -/
/- API route handlers of the optimized half (cache around the scrape). -/
/- ------------------------------------------------------------------ -/

/-- The JSON envelope; a response with no cached property is modelled with
    cachedFlag false (the property is only ever set to true). -/
structure ApiResponse where
  success : Bool
  data : List Record
  totalRecords : Nat
  cachedFlag : Bool
deriving DecidableEq

/-- Cache key of the optimized todays-price route, line 114. -/
def tpKey (limit maxPages : Nat) : String :=
  "todays-price-" ++ toString limit ++ "-" ++ toString maxPages

/-- Cache key of the optimized live-trading route, line 164. -/
def ltKey (limit maxPages : Nat) : String :=
  "live-trading-" ++ toString limit ++ "-" ++ toString maxPages

/-- GET /api/todays-price of the optimized half, lines 110-133, after the
    query parameters are resolved: on a cache hit, answer from the cache with
    cached: true and no scrape; on a miss, scrape, store with the default
    5-minute TTL, answer without the cached property; a scrape failure
    (initial load) yields the error envelope.  The result carries the
    response, the cache afterwards, and how many scrapes were attempted. -/
def handleTodaysPriceApi (env : ScrapeEnv) (c : Cache) (now limit maxPages : Nat) :
    ApiResponse × Cache × Nat :=
  match getCached c now (tpKey limit maxPages) with
  | (some d, c2) => (⟨true, d, d.length, true⟩, c2, 0)
  | (none, c2) =>
    if env.initialLoadOk then
      (⟨true, scrapeTodaysPrice env limit maxPages,
        (scrapeTodaysPrice env limit maxPages).length, false⟩,
       setCache c2 now (tpKey limit maxPages)
         (scrapeTodaysPrice env limit maxPages) 300000, 1)
    else (⟨false, [], 0, false⟩, c2, 1)

/-- GET /api/live-trading of the optimized half, lines 160-183: same shape,
    1-minute TTL for live data. -/
def handleLiveTradingApi (env : ScrapeEnv) (c : Cache) (now limit maxPages : Nat) :
    ApiResponse × Cache × Nat :=
  match getCached c now (ltKey limit maxPages) with
  | (some d, c2) => (⟨true, d, d.length, true⟩, c2, 0)
  | (none, c2) =>
    if env.initialLoadOk then
      (⟨true, scrapeLiveTrading env limit maxPages,
        (scrapeLiveTrading env limit maxPages).length, false⟩,
       setCache c2 now (ltKey limit maxPages)
         (scrapeLiveTrading env limit maxPages) 60000, 1)
    else (⟨false, [], 0, false⟩, c2, 1)

/- ------------------------------------------------------------------ -/
/- Concrete environments used by witnesses and counterexamples.        -/
/- ------------------------------------------------------------------ -/

/-- n identical one-cell rows. -/
def rowsOf (n : Nat) : List RawRow := List.replicate n [("x")]

/-- Every page has 3 rows, navigation always available: exercises the final
    truncation. -/
def envTrunc : ScrapeEnv :=
  ⟨fun _ => rowsOf 3, fun _ _ => 0, fun _ => true, fun _ => false,
   fun _ => true, fun _ => true, true⟩

/-- Every page has 1 row, navigation always available: exercises successful
    navigation attempts. -/
def envNav : ScrapeEnv :=
  ⟨fun _ => rowsOf 1, fun _ _ => 0, fun _ => true, fun _ => false,
   fun _ => true, fun _ => true, true⟩

/-- Page 1 has 20 rows and its navigation click times out
    (navOk 1 = false). -/
def envNavFail : ScrapeEnv :=
  ⟨fun _ => rowsOf 20, fun _ _ => 0, fun _ => true, fun _ => false,
   fun p => decide (p ≠ 1), fun _ => true, true⟩

/-- Twelve-row top-gainers page with no next control anywhere. -/
def envTG : ScrapeEnv :=
  ⟨fun _ => List.replicate 12 [("g")], fun _ _ => 0, fun _ => false,
   fun _ => false, fun _ => true, fun _ => true, true⟩

/-- Twelve-row top-gainers pages where page 1 has an enabled next control
    and page 2 has none. -/
def envTGMulti : ScrapeEnv :=
  ⟨fun _ => List.replicate 12 [("g")], fun _ _ => 0, fun p => decide (p = 1),
   fun _ => false, fun _ => true, fun _ => true, true⟩

/-- One-page environment for the cache-idempotence witness. -/
def envApi : ScrapeEnv :=
  ⟨fun _ => [[("NABIL"), ("100")]], fun _ _ => 0, fun _ => false,
   fun _ => false, fun _ => true, fun _ => true, true⟩

/-- Concrete data value for the cache counterexample. -/
def dataW : List Record := [[(("symbol"), ("NABIL"))]]

/-- Concrete one-entry cache for the cache-boundary witness. -/
def cacheW : Cache := [(("k"), ⟨[], 100⟩)]

/- ------------------------------------------------------------------ -/
/- Helper lemmas.                                                      -/
/- ------------------------------------------------------------------ -/

lemma normRows_length (f : Nat → RawRow → Record) (clock : Nat → Nat) :
    ∀ i rs, (normRows f clock i rs).length = rs.length := by
  intro i rs
  induction rs generalizing i with
  | nil => rfl
  | cons r rest ih => simp [normRows, ih]

lemma cacheGetRaw_del (c : Cache) (k : String) :
    cacheGetRaw (cacheDel c k) k = none := by
  induction c with
  | nil => rfl
  | cons hd tl ih =>
    obtain ⟨q, e⟩ := hd
    simp only [cacheDel]
    split_ifs with h
    · exact ih
    · simp only [cacheGetRaw]; rw [if_neg h]; exact ih

lemma cacheGetRaw_set (c : Cache) (k : String) (e : CacheEntry) :
    cacheGetRaw (cacheSet c k e) k = some e := by
  simp [cacheSet, cacheGetRaw]

lemma getCached_after_set (c : Cache) (k : String) (d : List Record)
    (tset ttl tget : Nat) (h : tget ≤ tset + ttl) :
    getCached (setCache c tset k d ttl) tget k =
      (some d, setCache c tset k d ttl) := by
  unfold getCached setCache
  rw [cacheGetRaw_set]
  dsimp only
  rw [if_neg (by omega)]

/- Visited-page bounds: each loop performs at most one extraction per
   pageCount value it can reach. -/

lemma tpLoop_visited_le (env : ScrapeEnv) (limit maxPages : Nat) :
    ∀ fuel pc acc vis navs,
      (tpLoop env limit maxPages fuel pc acc vis navs).visited ≤
        vis + (maxPages + 1 - pc) := by
  intro fuel
  induction fuel with
  | zero => intro pc acc vis navs; simp [tpLoop]
  | succ n ih =>
    intro pc acc vis navs
    simp only [tpLoop]
    split_ifs with h1 h2 h3 h4 h5 h6 h7 <;>
      first
        | exact le_trans (ih _ _ _ _) (by omega)
        | (dsimp only; omega)

lemma ltLoop_visited_le (env : ScrapeEnv) (limit maxPages : Nat) :
    ∀ fuel pc acc vis navs,
      (ltLoop env limit maxPages fuel pc acc vis navs).visited ≤
        vis + (maxPages + 1 - pc) := by
  intro fuel
  induction fuel with
  | zero => intro pc acc vis navs; simp [ltLoop]
  | succ n ih =>
    intro pc acc vis navs
    simp only [ltLoop]
    split_ifs with h1 h2 h3 h4 h5 h6 <;>
      first
        | exact le_trans (ih _ _ _ _) (by omega)
        | (dsimp only; omega)

lemma fsLoop_visited_le (env : ScrapeEnv) (limit maxPages : Nat) :
    ∀ fuel pc acc vis navs,
      (fsLoop env limit maxPages fuel pc acc vis navs).visited ≤
        vis + (maxPages + 1 - pc) := by
  intro fuel
  induction fuel with
  | zero => intro pc acc vis navs; simp [fsLoop]
  | succ n ih =>
    intro pc acc vis navs
    simp only [fsLoop]
    split_ifs with h1 h2 h3 h4 h5 <;>
      first
        | exact le_trans (ih _ _ _ _) (by omega)
        | (dsimp only; omega)

lemma tpAllLoop_visited_le (env : ScrapeEnv) (limit : Option Nat) :
    ∀ fuel pc acc vis navs,
      (tpAllLoop env limit fuel pc acc vis navs).visited ≤ vis + (101 - pc) := by
  intro fuel
  induction fuel with
  | zero => intro pc acc vis navs; simp [tpAllLoop]
  | succ n ih =>
    intro pc acc vis navs
    simp only [tpAllLoop]
    split_ifs with h1 h2 h3 h4 h5 h6 <;>
      first
        | exact le_trans (ih _ _ _ _) (by omega)
        | (dsimp only; omega)

lemma ltAllLoop_visited_le (env : ScrapeEnv) (limit : Option Nat) :
    ∀ fuel pc acc vis navs,
      (ltAllLoop env limit fuel pc acc vis navs).visited ≤ vis + (101 - pc) := by
  intro fuel
  induction fuel with
  | zero => intro pc acc vis navs; simp [ltAllLoop]
  | succ n ih =>
    intro pc acc vis navs
    simp only [ltAllLoop]
    split_ifs with h1 h2 h3 h4 h5 h6 <;>
      first
        | exact le_trans (ih _ _ _ _) (by omega)
        | (dsimp only; omega)

lemma tgAllLoop_visited_le (env : ScrapeEnv) :
    ∀ fuel pc acc vis navs,
      (tgAllLoop env fuel pc acc vis navs).visited ≤ vis + (51 - pc) := by
  intro fuel
  induction fuel with
  | zero => intro pc acc vis navs; simp [tgAllLoop]
  | succ n ih =>
    intro pc acc vis navs
    simp only [tgAllLoop]
    split_ifs with h1 h2 h3 h4 h5 <;>
      first
        | exact le_trans (ih _ _ _ _) (by omega)
        | (dsimp only; omega)

lemma fsAllLoop_visited_le (env : ScrapeEnv) (limit : Option Nat) :
    ∀ fuel pc acc vis navs,
      (fsAllLoop env limit fuel pc acc vis navs).visited ≤ vis + (101 - pc) := by
  intro fuel
  induction fuel with
  | zero => intro pc acc vis navs; simp [fsAllLoop]
  | succ n ih =>
    intro pc acc vis navs
    simp only [fsAllLoop]
    split_ifs with h1 h2 h3 h4 h5 <;>
      first
        | exact le_trans (ih _ _ _ _) (by omega)
        | (dsimp only; omega)

/- Navigation-failure bound: with the click sequence out of page p failing,
   no extraction beyond page p can happen. -/

lemma tpLoop_visited_navfail (env : ScrapeEnv) (limit maxPages p : Nat)
    (hnav : env.navOk p = false) :
    ∀ fuel pc acc vis navs, pc ≤ p →
      (tpLoop env limit maxPages fuel pc acc vis navs).visited ≤
        vis + (p + 1 - pc) := by
  intro fuel
  induction fuel with
  | zero => intro pc acc vis navs hpc; simp [tpLoop]
  | succ n ih =>
    intro pc acc vis navs hpc
    simp only [tpLoop]
    split_ifs with h1 h2 h3 h4 h5 h6 h7 <;>
      first
        | (dsimp only; omega)
        | (have hne : pc ≠ p := by intro hcontra; subst hcontra; exact h7 hnav
           exact le_trans (ih (pc + 1) _ _ _ (by omega)) (by omega))

lemma ltLoop_visited_navfail (env : ScrapeEnv) (limit maxPages p : Nat)
    (hnav : env.navOk p = false) :
    ∀ fuel pc acc vis navs, pc ≤ p →
      (ltLoop env limit maxPages fuel pc acc vis navs).visited ≤
        vis + (p + 1 - pc) := by
  intro fuel
  induction fuel with
  | zero => intro pc acc vis navs hpc; simp [ltLoop]
  | succ n ih =>
    intro pc acc vis navs hpc
    simp only [ltLoop]
    split_ifs with h1 h2 h3 h4 h5 h6 <;>
      first
        | (dsimp only; omega)
        | (have hne : pc ≠ p := by intro hcontra; subst hcontra; exact h6 hnav
           exact le_trans (ih (pc + 1) _ _ _ (by omega)) (by omega))

/- The recorded navigation-attempt states always satisfy both caps. -/

lemma navs_ext {limit maxPages : Nat} {navs : List (Nat × Nat)} {a p : Nat}
    (hinv : ∀ q ∈ navs, q.1 < limit ∧ q.2 < maxPages)
    (ha : a < limit) (hp : p < maxPages) :
    ∀ q ∈ navs ++ [(a, p)], q.1 < limit ∧ q.2 < maxPages := by
  intro q hq
  rcases List.mem_append.mp hq with h | h
  · exact hinv q h
  · rcases List.mem_singleton.mp h with rfl
    exact ⟨ha, hp⟩

lemma tpLoop_navs (env : ScrapeEnv) (limit maxPages : Nat) :
    ∀ fuel pc acc vis navs,
      (∀ q ∈ navs, q.1 < limit ∧ q.2 < maxPages) →
      ∀ q ∈ (tpLoop env limit maxPages fuel pc acc vis navs).navs,
        q.1 < limit ∧ q.2 < maxPages := by
  intro fuel
  induction fuel with
  | zero => intro pc acc vis navs hinv; simp only [tpLoop]; exact hinv
  | succ n ih =>
    intro pc acc vis navs hinv
    simp only [tpLoop]
    split_ifs with h1 h2 h3 h4 h5 h6 h7 <;>
      first
        | exact fun q hq => hinv q hq
        | exact navs_ext hinv (by omega) (by omega)
        | exact ih _ _ _ _ (navs_ext hinv (by omega) (by omega))

lemma ltLoop_navs (env : ScrapeEnv) (limit maxPages : Nat) :
    ∀ fuel pc acc vis navs,
      (∀ q ∈ navs, q.1 < limit ∧ q.2 < maxPages) →
      ∀ q ∈ (ltLoop env limit maxPages fuel pc acc vis navs).navs,
        q.1 < limit ∧ q.2 < maxPages := by
  intro fuel
  induction fuel with
  | zero => intro pc acc vis navs hinv; simp only [ltLoop]; exact hinv
  | succ n ih =>
    intro pc acc vis navs hinv
    simp only [ltLoop]
    split_ifs with h1 h2 h3 h4 h5 h6 <;>
      first
        | exact fun q hq => hinv q hq
        | exact navs_ext hinv (by omega) (by omega)
        | exact ih _ _ _ _ (navs_ext hinv (by omega) (by omega))

lemma fsLoop_navs (env : ScrapeEnv) (limit maxPages : Nat) :
    ∀ fuel pc acc vis navs,
      (∀ q ∈ navs, q.1 < limit ∧ q.2 < maxPages) →
      ∀ q ∈ (fsLoop env limit maxPages fuel pc acc vis navs).navs,
        q.1 < limit ∧ q.2 < maxPages := by
  intro fuel
  induction fuel with
  | zero => intro pc acc vis navs hinv; simp only [fsLoop]; exact hinv
  | succ n ih =>
    intro pc acc vis navs hinv
    simp only [fsLoop]
    split_ifs with h1 h2 h3 h4 h5 <;>
      first
        | exact fun q hq => hinv q hq
        | exact navs_ext hinv (by omega) (by omega)
        | exact ih _ _ _ _ (navs_ext hinv (by omega) (by omega))

/- One unfolding step of the unlimited top-gainers loop when the first page
   has no enabled next control. -/

lemma tgAll_first_page (env : ScrapeEnv) (fuel : Nat)
    (h : env.nextFound 1 = false) :
    (tgAllLoop env (fuel + 1) 1 [] 0 []).visited = 1 ∧
    (tgAllLoop env (fuel + 1) 1 [] 0 []).acc = tgNormPage env 1 := by
  have hk : (1 : Nat) ≤ 50 := by omega
  simp only [tgAllLoop, if_pos hk]
  split_ifs with h2 <;>
    first
      | exact ⟨rfl, (List.length_eq_zero.mp h2).symm⟩
      | exact ⟨rfl, by simp⟩

/- Route-handler unfolding lemmas: behaviour on a cache miss and on a
   cache hit. -/

lemma handleTP_miss (env : ScrapeEnv) (c : Cache) (now limit maxPages : Nat)
    (h : (getCached c now (tpKey limit maxPages)).1 = none)
    (hl : env.initialLoadOk = true) :
    handleTodaysPriceApi env c now limit maxPages =
      (⟨true, scrapeTodaysPrice env limit maxPages,
        (scrapeTodaysPrice env limit maxPages).length, false⟩,
       setCache (getCached c now (tpKey limit maxPages)).2 now (tpKey limit maxPages)
         (scrapeTodaysPrice env limit maxPages) 300000, 1) := by
  unfold handleTodaysPriceApi
  split
  next d c2 heq => rw [heq] at h; simp at h
  next c2 heq => simp [hl, heq]

lemma handleTP_hit (env : ScrapeEnv) (c : Cache) (now limit maxPages : Nat)
    (d : List Record)
    (h : (getCached c now (tpKey limit maxPages)).1 = some d) :
    handleTodaysPriceApi env c now limit maxPages =
      (⟨true, d, d.length, true⟩, (getCached c now (tpKey limit maxPages)).2, 0) := by
  unfold handleTodaysPriceApi
  split
  next d2 c2 heq =>
    rw [heq] at h
    have hd : d2 = d := by injection h
    subst hd
    simp [heq]
  next c2 heq => rw [heq] at h; simp at h

lemma handleLT_miss (env : ScrapeEnv) (c : Cache) (now limit maxPages : Nat)
    (h : (getCached c now (ltKey limit maxPages)).1 = none)
    (hl : env.initialLoadOk = true) :
    handleLiveTradingApi env c now limit maxPages =
      (⟨true, scrapeLiveTrading env limit maxPages,
        (scrapeLiveTrading env limit maxPages).length, false⟩,
       setCache (getCached c now (ltKey limit maxPages)).2 now (ltKey limit maxPages)
         (scrapeLiveTrading env limit maxPages) 60000, 1) := by
  unfold handleLiveTradingApi
  split
  next d c2 heq => rw [heq] at h; simp at h
  next c2 heq => simp [hl, heq]

lemma handleLT_hit (env : ScrapeEnv) (c : Cache) (now limit maxPages : Nat)
    (d : List Record)
    (h : (getCached c now (ltKey limit maxPages)).1 = some d) :
    handleLiveTradingApi env c now limit maxPages =
      (⟨true, d, d.length, true⟩, (getCached c now (ltKey limit maxPages)).2, 0) := by
  unfold handleLiveTradingApi
  split
  next d2 c2 heq =>
    rw [heq] at h
    have hd : d2 = d := by injection h
    subst hd
    simp [heq]
  next c2 heq => rw [heq] at h; simp at h

/- ------------------------------------------------------------------ -/
/- Claim theorems.                                                     -/
/- ------------------------------------------------------------------ -/

/-- C1: for every scrape invocation of the optimized scrapeTodaysPrice,
    scrapeLiveTrading and scrapeFloorSheet with limit N, the returned record
    sequence has length at most N, and whenever the accumulated data exceeds
    N it is truncated to exactly the first N records before return. -/
theorem scrape_limit_bound (env : ScrapeEnv) (limit maxPages : Nat) :
    (scrapeTodaysPrice env limit maxPages).length ≤ limit ∧
    (scrapeLiveTrading env limit maxPages).length ≤ limit ∧
    (scrapeFloorSheet env limit maxPages).length ≤ limit ∧
    (limit < (tpRun env limit maxPages).acc.length →
       scrapeTodaysPrice env limit maxPages =
         (tpRun env limit maxPages).acc.take limit ∧
       (scrapeTodaysPrice env limit maxPages).length = limit) := by
  refine ⟨?_, ?_, ?_, ?_⟩
  · unfold scrapeTodaysPrice
    split_ifs with h
    · exact List.length_take_le _ _
    · omega
  · unfold scrapeLiveTrading
    split_ifs with h
    · exact List.length_take_le _ _
    · omega
  · unfold scrapeFloorSheet
    split_ifs with h
    · exact List.length_take_le _ _
    · omega
  · intro h
    unfold scrapeTodaysPrice
    rw [if_pos h]
    refine ⟨rfl, ?_⟩
    rw [List.length_take]
    omega

/-- Witness for C1: a concrete run (three rows per page, limit 2) whose
    accumulator exceeds the limit and is truncated to exactly 2 records. -/
theorem scrape_limit_bound_witness :
    2 < (tpRun envTrunc 2 2).acc.length ∧
    scrapeTodaysPrice envTrunc 2 2 = (tpRun envTrunc 2 2).acc.take 2 ∧
    (scrapeTodaysPrice envTrunc 2 2).length = 2 :=
  ⟨by decide, ((scrape_limit_bound envTrunc 2 2).2.2.2 (by decide)).1,
   ((scrape_limit_bound envTrunc 2 2).2.2.2 (by decide)).2⟩

/-- C2: with maxPages = P set, each optimized pagination loop performs at
    most P page extractions. -/
theorem pagination_page_cap (env : ScrapeEnv) (limit maxPages : Nat) :
    (tpRun env limit maxPages).visited ≤ maxPages ∧
    (ltRun env limit maxPages).visited ≤ maxPages ∧
    (fsRun env limit maxPages).visited ≤ maxPages := by
  refine ⟨?_, ?_, ?_⟩
  · exact le_trans (tpLoop_visited_le env limit maxPages maxPages 1 [] 0 []) (by omega)
  · exact le_trans (ltLoop_visited_le env limit maxPages maxPages 1 [] 0 []) (by omega)
  · exact le_trans (fsLoop_visited_le env limit maxPages maxPages 1 [] 0 []) (by omega)

/-- C3 counterexample: getCached at a time exactly equal to the entry's
    expiry (so not strictly before it) still returns the stored value,
    refuting the claim that any read not strictly before the expiry behaves
    as a miss. -/
theorem getCached_exact_expiry_cex :
    (getCached (setCache [] 0 ("k") dataW 60000) 60000 ("k")).1 = some dataW := by
  decide

/-- C3 amended: getCached returns the stored value exactly when the current
    time is at most the entry's expiry (at the expiry instant itself the
    value is still returned); strictly after the expiry it returns absent
    and evicts the entry, so an expired entry is never readable again. -/
theorem getCached_boundary (c : Cache) (now : Nat) (k : String) (e : CacheEntry) :
    (cacheGetRaw c k = some e → now ≤ e.expiry →
       getCached c now k = (some e.data, c)) ∧
    (cacheGetRaw c k = some e → e.expiry < now →
       getCached c now k = (none, cacheDel c k) ∧
       cacheGetRaw (cacheDel c k) k = none) ∧
    (cacheGetRaw c k = none → getCached c now k = (none, c)) := by
  refine ⟨?_, ?_, ?_⟩
  · intro h hle
    unfold getCached
    rw [h]
    dsimp only
    rw [if_neg (by omega)]
  · intro h hlt
    unfold getCached
    rw [h]
    dsimp only
    rw [if_pos hlt]
    exact ⟨rfl, cacheGetRaw_del c k⟩
  · intro h
    unfold getCached
    rw [h]

/-- Witness for C3: the boundary theorem applied to a concrete one-entry
    cache, on both sides of the expiry. -/
theorem getCached_boundary_witness :
    cacheGetRaw cacheW ("k") = some ⟨[], 100⟩ ∧
    getCached cacheW 50 ("k") = (some [], cacheW) ∧
    getCached cacheW 150 ("k") = (none, cacheDel cacheW ("k")) ∧
    cacheGetRaw (cacheDel cacheW ("k")) ("k") = none :=
  ⟨by decide,
   (getCached_boundary cacheW 50 ("k") ⟨[], 100⟩).1 (by decide) (by decide),
   ((getCached_boundary cacheW 150 ("k") ⟨[], 100⟩).2.1 (by decide) (by decide)).1,
   ((getCached_boundary cacheW 150 ("k") ⟨[], 100⟩).2.1 (by decide) (by decide)).2⟩

/-- C4: a navigation failure out of page p (p at least 1, so the failed load
    is of a page after the first) never propagates as an error: the scrape
    still returns a successful result, and no page beyond p is extracted. -/
theorem navigation_failure_graceful (env : ScrapeEnv) (limit maxPages p : Nat)
    (hload : env.initialLoadOk = true) (hnav : env.navOk p = false)
    (hp : 1 ≤ p) :
    scrapeTodaysPriceE env limit maxPages =
      Except.ok (scrapeTodaysPrice env limit maxPages) ∧
    (tpRun env limit maxPages).visited ≤ p ∧
    scrapeLiveTradingE env limit maxPages =
      Except.ok (scrapeLiveTrading env limit maxPages) ∧
    (ltRun env limit maxPages).visited ≤ p := by
  refine ⟨?_, ?_, ?_, ?_⟩
  · simp [scrapeTodaysPriceE, hload]
  · exact le_trans
      (tpLoop_visited_navfail env limit maxPages p hnav maxPages 1 [] 0 [] hp)
      (by omega)
  · simp [scrapeLiveTradingE, hload]
  · exact le_trans
      (ltLoop_visited_navfail env limit maxPages p hnav maxPages 1 [] 0 [] hp)
      (by omega)

/-- Witness for C4: the spec scenario — live trading, limit 100, page 2's
    navigation times out after 20 rows were collected on page 1; the result
    is a successful value of exactly 20 records. -/
theorem navigation_failure_graceful_witness :
    envNavFail.initialLoadOk = true ∧ envNavFail.navOk 1 = false ∧ 1 ≤ 1 ∧
    (scrapeTodaysPriceE envNavFail 100 3 =
       Except.ok (scrapeTodaysPrice envNavFail 100 3) ∧
     (tpRun envNavFail 100 3).visited ≤ 1 ∧
     scrapeLiveTradingE envNavFail 100 3 =
       Except.ok (scrapeLiveTrading envNavFail 100 3) ∧
     (ltRun envNavFail 100 3).visited ≤ 1) ∧
    (scrapeLiveTrading envNavFail 100 3).length = 20 :=
  ⟨rfl, by decide, by decide,
   navigation_failure_graceful envNavFail 100 3 1 rfl (by decide) (by decide),
   by decide⟩

/-- C5: normalization is total and positional; every field named by a
    source's column map is defined on every raw row of any length, its value
    is the positional cell read, and any cell index at or beyond the row's
    length yields the empty string. -/
theorem normalizer_total_positional (now : Nat) (cells : RawRow) :
    (∀ f i, (f, i) ∈ tpColumnMap →
       lookupField f (normalizeTodaysPrice now cells) = some (cellAt cells i)) ∧
    (∀ f i, (f, i) ∈ ltColumnMap →
       lookupField f (normalizeLiveTrading now cells) = some (cellAt cells i)) ∧
    (∀ f i, (f, i) ∈ tgColumnMap →
       lookupField f (normalizeTopGainers now cells) = some (cellAt cells i)) ∧
    (∀ f i, (f, i) ∈ fsColumnMap →
       lookupField f (normalizeFloorSheet now cells) = some (cellAt cells i)) ∧
    (∀ i, cells.length ≤ i → cellAt cells i = emptyText) := by
  refine ⟨?_, ?_, ?_, ?_, ?_⟩
  · intro f i h
    fin_cases h <;> rfl
  · intro f i h
    fin_cases h <;> rfl
  · intro f i h
    fin_cases h <;> rfl
  · intro f i h
    fin_cases h <;> rfl
  · intro i hi
    unfold cellAt
    exact List.getD_eq_default _ _ hi

/-- Witness for C5: the empty raw row still yields a defined value (the
    empty string) for the last todays-price column. -/
theorem normalizer_total_positional_witness :
    (("previousClose", 9) ∈ tpColumnMap) ∧
    lookupField ("previousClose") (normalizeTodaysPrice 0 []) =
      some (cellAt [] 9) ∧
    cellAt ([] : RawRow) 9 = emptyText :=
  ⟨by decide,
   (normalizer_total_positional 0 []).1 ("previousClose") 9 (by decide),
   (normalizer_total_positional 0 []).2.2.2.2 9 (by decide)⟩

/-- C6 counterexample: part_000's live-trading and top-gainers normalizers
    produce records with no timestamp field at all, refuting the claim that
    every variant's normalizer stamps one. -/
theorem p0_timestamp_missing_cex :
    lookupField ("timestamp") (p0NormalizeLiveTrading
      [("NABIL"), ("1250.00"), ("15.00"), ("1.21%"), ("15000"),
       ("1260.00"), ("1230.00")]) = none ∧
    lookupField ("timestamp") (p0NormalizeTopGainers
      [("NABIL"), ("1250.00"), ("15.00"), ("1.21%")]) = none :=
  ⟨rfl, rfl⟩

/-- C6 amended: every normalizer of both src/api/index.js variants, and
    part_000's todays-price normalizer, stamps a timestamp rendering of the
    clock at normalization time; part_000's live-trading and top-gainers
    normalizers produce no timestamp field. -/
theorem timestamp_by_variant (now : Nat) (cells : RawRow) :
    lookupField ("timestamp") (normalizeTodaysPrice now cells) =
      some (isoString now) ∧
    lookupField ("timestamp") (normalizeLiveTrading now cells) =
      some (isoString now) ∧
    lookupField ("timestamp") (normalizeTopGainers now cells) =
      some (isoString now) ∧
    lookupField ("timestamp") (normalizeFloorSheet now cells) =
      some (isoString now) ∧
    lookupField ("timestamp") (p0NormalizeLiveTrading cells) = none ∧
    lookupField ("timestamp") (p0NormalizeTopGainers cells) = none :=
  ⟨rfl, rfl, rfl, rfl, rfl, rfl⟩

/-- C7: every state in which an optimized loop went on to query the next
    control has accumulated strictly fewer records than the limit and a page
    count strictly below maxPages — the loop never attempts navigation once
    either cap is reached. -/
theorem nav_checked_before_fetch (env : ScrapeEnv) (limit maxPages a p : Nat)
    (h : (a, p) ∈ (tpRun env limit maxPages).navs ∨
         (a, p) ∈ (ltRun env limit maxPages).navs ∨
         (a, p) ∈ (fsRun env limit maxPages).navs) :
    a < limit ∧ p < maxPages := by
  rcases h with h | h | h
  · exact tpLoop_navs env limit maxPages maxPages 1 [] 0 [] (by simp) (a, p) h
  · exact ltLoop_navs env limit maxPages maxPages 1 [] 0 [] (by simp) (a, p) h
  · exact fsLoop_navs env limit maxPages maxPages 1 [] 0 [] (by simp) (a, p) h

/-- Witness for C7: a concrete run that actually attempts a navigation
    (one record accumulated, page 1) under limit 5 and maxPages 3. -/
theorem nav_checked_before_fetch_witness :
    (((1, 1) : Nat × Nat) ∈ (tpRun envNav 5 3).navs ∨
     ((1, 1) : Nat × Nat) ∈ (ltRun envNav 5 3).navs ∨
     ((1, 1) : Nat × Nat) ∈ (fsRun envNav 5 3).navs) ∧ 1 < 5 ∧ 1 < 3 :=
  ⟨Or.inl (by decide),
   nav_checked_before_fetch envNav 5 3 1 1 (Or.inl (by decide))⟩

/-- C8 counterexample: the unlimited scrapeTopGainers paginates — with an
    enabled next control on page 1 it extracts two pages and returns 24
    records from two 12-row pages, not one page of 12. -/
theorem topGainers_multipage_cex :
    (tgAllRun envTGMulti).visited = 2 ∧
    ¬ (tgAllRun envTGMulti).visited = 1 ∧
    (scrapeTopGainersAll envTGMulti).length = 24 ∧
    ¬ (scrapeTopGainersAll envTGMulti).length = 12 := by
  decide

/-- C8 amended: the optimized scrapeTopGainers extracts exactly the first
    page (its result depends only on page 1's rows and clock, and has one
    record per first-page row); the unlimited variant does paginate, but when
    the first page has no enabled next control it also visits exactly one
    page and returns exactly that page's records. -/
theorem topGainers_single_page (env envAlt : ScrapeEnv)
    (hrows : env.pageRows 1 = envAlt.pageRows 1)
    (hclock : env.clock 1 = envAlt.clock 1) :
    scrapeTopGainersOpt env = scrapeTopGainersOpt envAlt ∧
    (scrapeTopGainersOpt env).length = (env.pageRows 1).length ∧
    (env.nextFound 1 = false →
       (tgAllRun env).visited = 1 ∧
       scrapeTopGainersAll env = tgNormPage env 1) := by
  refine ⟨?_, ?_, ?_⟩
  · unfold scrapeTopGainersOpt tgNormPage
    rw [hrows, hclock]
  · exact normRows_length _ _ _ _
  · intro h
    exact ⟨(tgAll_first_page env 50 h).1, (tgAll_first_page env 50 h).2⟩

/-- Witness for C8: a twelve-row top-gainers page with no next control gives
    exactly 12 records in both variants, one page visited. -/
theorem topGainers_single_page_witness :
    envTG.pageRows 1 = envTG.pageRows 1 ∧ envTG.clock 1 = envTG.clock 1 ∧
    envTG.nextFound 1 = false ∧
    (scrapeTopGainersOpt envTG).length = (envTG.pageRows 1).length ∧
    (tgAllRun envTG).visited = 1 ∧
    scrapeTopGainersAll envTG = tgNormPage envTG 1 ∧
    (scrapeTopGainersOpt envTG).length = 12 :=
  ⟨rfl, rfl, rfl,
   (topGainers_single_page envTG envTG rfl rfl).2.1,
   ((topGainers_single_page envTG envTG rfl rfl).2.2 rfl).1,
   ((topGainers_single_page envTG envTG rfl rfl).2.2 rfl).2,
   by decide⟩

/-- C9: for the optimized todays-price and live-trading routes, a second
    call with identical resolved parameters while the first call's entry is
    unexpired performs no scrape and returns the same envelope except for
    the cached flag being true. -/
theorem cache_hit_idempotent (env : ScrapeEnv) (c0 : Cache)
    (t0 t1 limit maxPages : Nat)
    (hload : env.initialLoadOk = true)
    (hmisstp : (getCached c0 t0 (tpKey limit maxPages)).1 = none)
    (hmisslt : (getCached c0 t0 (ltKey limit maxPages)).1 = none)
    (hfreshtp : t1 ≤ t0 + 300000)
    (hfreshlt : t1 ≤ t0 + 60000) :
    ((handleTodaysPriceApi env (handleTodaysPriceApi env c0 t0 limit maxPages).2.1
        t1 limit maxPages).1 =
       { (handleTodaysPriceApi env c0 t0 limit maxPages).1 with cachedFlag := true } ∧
     (handleTodaysPriceApi env (handleTodaysPriceApi env c0 t0 limit maxPages).2.1
        t1 limit maxPages).2.2 = 0 ∧
     (handleTodaysPriceApi env c0 t0 limit maxPages).1.cachedFlag = false ∧
     (handleTodaysPriceApi env c0 t0 limit maxPages).2.2 = 1) ∧
    ((handleLiveTradingApi env (handleLiveTradingApi env c0 t0 limit maxPages).2.1
        t1 limit maxPages).1 =
       { (handleLiveTradingApi env c0 t0 limit maxPages).1 with cachedFlag := true } ∧
     (handleLiveTradingApi env (handleLiveTradingApi env c0 t0 limit maxPages).2.1
        t1 limit maxPages).2.2 = 0 ∧
     (handleLiveTradingApi env c0 t0 limit maxPages).1.cachedFlag = false ∧
     (handleLiveTradingApi env c0 t0 limit maxPages).2.2 = 1) := by
  have e1 := handleTP_miss env c0 t0 limit maxPages hmisstp hload
  have g2 := getCached_after_set (getCached c0 t0 (tpKey limit maxPages)).2
    (tpKey limit maxPages) (scrapeTodaysPrice env limit maxPages) t0 300000 t1
    hfreshtp
  have e2 := handleTP_hit env
    (setCache (getCached c0 t0 (tpKey limit maxPages)).2 t0 (tpKey limit maxPages)
      (scrapeTodaysPrice env limit maxPages) 300000) t1 limit maxPages
    (scrapeTodaysPrice env limit maxPages) (by rw [g2])
  have f1 := handleLT_miss env c0 t0 limit maxPages hmisslt hload
  have gl2 := getCached_after_set (getCached c0 t0 (ltKey limit maxPages)).2
    (ltKey limit maxPages) (scrapeLiveTrading env limit maxPages) t0 60000 t1
    hfreshlt
  have f2 := handleLT_hit env
    (setCache (getCached c0 t0 (ltKey limit maxPages)).2 t0 (ltKey limit maxPages)
      (scrapeLiveTrading env limit maxPages) 60000) t1 limit maxPages
    (scrapeLiveTrading env limit maxPages) (by rw [gl2])
  rw [e1, f1]
  dsimp only
  rw [e2, f2]
  exact ⟨⟨rfl, rfl, rfl, rfl⟩, ⟨rfl, rfl, rfl, rfl⟩⟩

/-- Witness for C9: both routes, starting from the empty cache at time 0,
    re-queried at time 1000 with the same resolved parameters. -/
theorem cache_hit_idempotent_witness :
    envApi.initialLoadOk = true ∧
    (getCached [] 0 (tpKey 5 2)).1 = none ∧
    (getCached [] 0 (ltKey 5 2)).1 = none ∧
    1000 ≤ 0 + 300000 ∧ 1000 ≤ 0 + 60000 ∧
    (((handleTodaysPriceApi envApi (handleTodaysPriceApi envApi [] 0 5 2).2.1
        1000 5 2).1 =
       { (handleTodaysPriceApi envApi [] 0 5 2).1 with cachedFlag := true } ∧
     (handleTodaysPriceApi envApi (handleTodaysPriceApi envApi [] 0 5 2).2.1
        1000 5 2).2.2 = 0 ∧
     (handleTodaysPriceApi envApi [] 0 5 2).1.cachedFlag = false ∧
     (handleTodaysPriceApi envApi [] 0 5 2).2.2 = 1) ∧
    ((handleLiveTradingApi envApi (handleLiveTradingApi envApi [] 0 5 2).2.1
        1000 5 2).1 =
       { (handleLiveTradingApi envApi [] 0 5 2).1 with cachedFlag := true } ∧
     (handleLiveTradingApi envApi (handleLiveTradingApi envApi [] 0 5 2).2.1
        1000 5 2).2.2 = 0 ∧
     (handleLiveTradingApi envApi [] 0 5 2).1.cachedFlag = false ∧
     (handleLiveTradingApi envApi [] 0 5 2).2.2 = 1)) :=
  ⟨rfl, by decide, by decide, by decide, by decide,
   cache_hit_idempotent envApi [] 0 1000 5 2 rfl (by decide) (by decide)
     (by decide) (by decide)⟩

/-- C10: in the unlimited variant every pagination loop is bounded by its
    hardcoded page constant for every environment — even one that always
    offers an enabled next control and always navigates successfully — so
    no scrape extracts more than 100 pages (todays-price, live-trading,
    floor-sheet) or 50 pages (top-gainers). -/
theorem unlimited_page_bounds (env : ScrapeEnv) (limit : Option Nat) :
    (tpAllRun env limit).visited ≤ 100 ∧
    (ltAllRun env limit).visited ≤ 100 ∧
    (tgAllRun env).visited ≤ 50 ∧
    (fsAllRun env limit).visited ≤ 100 := by
  refine ⟨?_, ?_, ?_, ?_⟩
  · exact le_trans (tpAllLoop_visited_le env limit 101 1 [] 0 []) (by omega)
  · exact le_trans (ltAllLoop_visited_le env limit 101 1 [] 0 []) (by omega)
  · exact le_trans (tgAllLoop_visited_le env 51 1 [] 0 []) (by omega)
  · exact le_trans (fsAllLoop_visited_le env limit 101 1 [] 0 []) (by omega)
